import Mathlib

/-!
Verification of the UIDAI dashboard (`app.py`): a shallow embedding of the
data-cleaning, region-filter and policy-simulator logic, with theorems about
the spec's claims.  Machine reals are modelled by `ℚ` (every constant in the
code — 0.02, 0.01, 0.90, 0.1, 5.0 — is an exact rational); a dataframe is a
list of rows; pandas column-wise assignments become `List.map`.
-/

/-- A District Record, with the columns `app.py` reads.  Field names follow
the CSV column names used in the source. -/
structure Row where
  state : String
  district : String
  assi : ℚ
  Priority : String
  security_status : String
  future_mbu_demand : ℚ
  Preparedness_Index : ℚ
  District_Playbook : String
  district_type : String
deriving DecidableEq

/-! ## Data loader / normalizer (`load_data`, app.py lines 30-47) -/

/-- Python `str.strip` whitespace set (`' \t\n\r\x0b\x0c'`). -/
def pyIsSpace (c : Char) : Bool :=
  c = ' ' || c = '\t' || c = '\n' || c = '\r' || c = '\x0b' || c = '\x0c'

/-- Python `str.strip`: drop leading and trailing whitespace. -/
def pyStrip (s : String) : String :=
  String.mk (((s.toList.dropWhile pyIsSpace).reverse.dropWhile pyIsSpace).reverse)

/-- Helper for `pyTitle`: `prev` records whether the previous character was
alphabetic (Python title-cases the first letter after any non-letter). -/
def pyTitleAux : Bool → List Char → List Char
  | _, [] => []
  | prev, c :: cs =>
    if c.isAlpha then
      (if prev then c.toLower else c.toUpper) :: pyTitleAux true cs
    else
      c :: pyTitleAux false cs

/-- Python `str.title` as used by `pandas.Series.str.title`. -/
def pyTitle (s : String) : String :=
  String.mk (pyTitleAux false s.toList)

/-- The fixed typo-correction table from `load_data` (app.py lines 37-42). -/
def state_corrections : List (String × String) :=
  [("Westbengal", "West Bengal"), ("West Bangal", "West Bengal"),
   ("Westbenga", "West Bengal"), ("Telengana", "Telangana"),
   ("Orissa", "Odisha"), ("Chattisgarh", "Chhattisgarh"),
   ("Jammu And Kashmir", "Jammu & Kashmir"), ("Daman And Diu", "Daman & Diu"),
   ("Dadra And Nagar Haveli", "Dadra & Nagar Haveli")]

/-- First-match association lookup, modelling `pandas.Series.replace` with a
dict on exact values. -/
def lookupCorrection (s : String) : List (String × String) → Option String
  | [] => none
  | p :: t => if s = p.1 then some p.2 else lookupCorrection s t

/-- `Series.replace`: a value that is a key of the table goes to its
corrected form, anything else is unchanged. -/
def applyCorrections (s : String) : String :=
  (lookupCorrection s state_corrections).getD s

/-- The full per-value normalization of app.py line 36 + line 43:
strip, then title-case, then the correction table. -/
def normalizeState (s : String) : String :=
  applyCorrections (pyTitle (pyStrip s))

/-- The names the correction table recognizes as misspelled (its keys). -/
def knownMisspellings : List String :=
  state_corrections.map Prod.fst

/-- The dataframe body of `load_data` after a successful read: the `state`
column is normalized, every other column untouched. -/
def cleanStates (df : List Row) : List Row :=
  df.map (fun r => { r with state := normalizeState r.state })

/-- `load_data` (app.py lines 30-47): `none` models a missing
`aadhaar_dashboard_data.csv` (the `FileNotFoundError` branch shows an error
message and halts). -/
def load_data (source : Option (List Row)) : Except String (List Row) :=
  match source with
  | none => Except.error "Data file not found! Run the Notebook Export step first."
  | some df => Except.ok (cleanStates df)

/-! ## Region filter (app.py lines 56-62) -/

/-- The filter logic of app.py lines 59-62: a concrete region keeps exactly
the matching rows, "All India" keeps everything. -/
def filterRegion (selected_state : String) (df : List Row) : List Row :=
  if selected_state ≠ "All India" then
    df.filter (fun r => decide (r.state = selected_state))
  else df

/-! ## Policy simulator (app.py lines 70-100) -/

/-- Stress-test branch (app.py lines 72-84).  Returns the (possibly
transformed) view together with the reported collapsed count: `none` models
the `else` branch (multiplier at its default 1.0), where nothing is
multiplied and no count is computed. -/
def stressBranch (load_multiplier : ℚ) (df : List Row) :
    List Row × Option ℕ :=
  if 1 < load_multiplier then
    let df' := df.map (fun r => { r with assi := r.assi * load_multiplier })
    (df', some ((df'.filter (fun r => decide ((5 : ℚ) < r.assi))).length))
  else (df, none)

/-- `impact` of app.py line 93: `min(new_kits*0.02 + staff_boost*0.01, 0.90)`
(0.02 = 2/100, 0.01 = 1/100, 0.90 = 9/10). -/
def impact (new_kits staff_boost : ℕ) : ℚ :=
  min ((new_kits : ℚ) * (2/100) + (staff_boost : ℚ) * (1/100)) (9/10)

/-- Relief branch (app.py lines 88-100): when either slider is positive the
stress column is scaled by `1 - impact` and clipped below at 0.1; otherwise
the view is returned untouched. -/
def reliefBranch (new_kits staff_boost : ℕ) (df : List Row) : List Row :=
  if 0 < new_kits ∨ 0 < staff_boost then
    df.map (fun r =>
      { r with assi := max (r.assi * (1 - impact new_kits staff_boost)) (1/10) })
  else df

/-- Spec-side formula for the relief transform (§4.2 of the spec):
`stress' = max(stress × (1 − min(0.02k + 0.01s, 0.90)), 0.1)`. -/
def reliefSpecStress (k s : ℕ) (stress : ℚ) : ℚ :=
  max (stress * (1 - min ((2/100) * (k : ℚ) + (1/100) * (s : ℚ)) (9/10))) (1/10)

/-- Forget the stress metric: used to state that a transform changes nothing
but the `assi` field. -/
def eraseStress (r : Row) : Row :=
  { r with assi := 0 }

/-! Concrete rows for witnesses and counterexamples. -/

/-- A baseline concrete record. -/
def baseRow : Row :=
  { state := "Odisha", district := "Cuttack", assi := 3,
    Priority := "CRITICAL", security_status := "Normal",
    future_mbu_demand := 1200, Preparedness_Index := 55,
    District_Playbook := "Deploy Kits", district_type := "Rural" }

/-- A record whose stress already exceeds the 5.0 collapse threshold. -/
def hotRow : Row := { baseRow with assi := 6 }

/-- A record whose stress sits below the 0.1 relief floor. -/
def lowRow : Row := { baseRow with assi := 1/20 }

/-! ## Column access on the display tabs (app.py lines 110-185)

pandas raises a `KeyError` when a subscripted column is absent, while
`Series.get(key, default)` returns the default.  `present` lists the columns
the loaded CSV actually has; `requireCol` models direct subscripting. -/

/-- Direct column subscripting `df[name]` / `row[name]`: an absent column is
a raised `KeyError`. -/
def requireCol (present : List String) (name : String) : Except String Unit :=
  if name ∈ present then Except.ok () else Except.error ("KeyError: " ++ name)

/-- `Series.median()` on the stress column (app.py line 114): sort, take the
middle element, or the mean of the two middle elements. -/
def medianQ (l : List ℚ) : ℚ :=
  let s := l.insertionSort (fun a b => a ≤ b)
  let n := s.length
  if n = 0 then 0
  else if n % 2 = 1 then s.getD (n / 2) 0
  else (s.getD (n / 2 - 1) 0 + s.getD (n / 2) 0) / 2

/-- The four headline numbers of the Executive Overview tab. -/
structure OverviewMetrics where
  critical_count : ℕ
  median_stress : ℚ
  mbu_total : ℚ
  security_alerts : ℕ
deriving DecidableEq

/-- Tab 1 metric computation (app.py lines 113-116): every column is accessed
by direct subscripting, in source order. -/
def tab1Metrics (present : List String) (rows : List Row) :
    Except String OverviewMetrics := do
  requireCol present "Priority"
  let critical_count := (rows.filter (fun r => decide (r.Priority = "CRITICAL"))).length
  requireCol present "assi"
  let median_stress := medianQ (rows.map Row.assi)
  requireCol present "future_mbu_demand"
  let mbu_total := (rows.map Row.future_mbu_demand).sum
  requireCol present "security_status"
  let security_alerts := (rows.filter (fun r => decide (r.security_status ≠ "Normal"))).length
  return ⟨critical_count, median_stress, mbu_total, security_alerts⟩

/-- What the District Deep-Dive panel shows for the selected district. -/
structure DeepDiveView where
  district : String
  state : String
  priority : String
  score : ℚ
  mbu : ℚ
  playbook : String
  progressValue : ℚ
deriving DecidableEq

/-- Tab 3 deep-dive panel (app.py lines 168-185), with accesses in source
order: `district`, `state`, `future_mbu_demand` and `assi` are direct
subscripts; `Priority`, `Preparedness_Index` and `District_Playbook` go
through `Series.get` with defaults `'Normal'`, `0`, `'Maintain Operations'`. -/
def deepDivePanel (present : List String) (d : Row) :
    Except String DeepDiveView := do
  requireCol present "district"
  requireCol present "state"
  let priority := if "Priority" ∈ present then d.Priority else "Normal"
  let score := if "Preparedness_Index" ∈ present then d.Preparedness_Index else 0
  requireCol present "future_mbu_demand"
  let playbook :=
    if "District_Playbook" ∈ present then d.District_Playbook
    else "Maintain Operations"
  requireCol present "assi"
  return ⟨d.district, d.state, priority, score, d.future_mbu_demand, playbook,
    min (d.assi / 5) 1⟩

/-- A column set missing `Priority` (all other overview columns present). -/
def presentNoPriority : List String :=
  ["state", "district", "assi", "future_mbu_demand", "security_status"]

/-! ## Helper lemmas about the correction lookup -/

/-- If a key occurs in the table, the lookup finds something. -/
lemma lookupCorrection_isSome_of_key (s : String) (t : List (String × String))
    (h : ∃ p ∈ t, p.1 = s) : lookupCorrection s t ≠ none := by
  induction t with
  | nil => obtain ⟨p, hp, -⟩ := h; exact absurd hp (List.not_mem_nil p)
  | cons q t ih =>
    obtain ⟨p, hp, hps⟩ := h
    by_cases hq : s = q.1
    · simp [lookupCorrection, hq]
    · rcases List.mem_cons.mp hp with rfl | hp'
      · exact absurd hps.symm hq
      · simpa [lookupCorrection, hq] using ih ⟨p, hp', hps⟩

/-- A successful lookup returns one of the table's values. -/
lemma lookupCorrection_mem (s v : String) (t : List (String × String))
    (h : lookupCorrection s t = some v) : ∃ p ∈ t, p.2 = v := by
  induction t with
  | nil => simp [lookupCorrection] at h
  | cons q t ih =>
    by_cases hq : s = q.1
    · refine ⟨q, List.mem_cons_self q t, ?_⟩
      simpa [lookupCorrection, hq] using h
    · obtain ⟨p, hp, hv⟩ := ih (by simpa [lookupCorrection, hq] using h)
      exact ⟨p, List.mem_cons_of_mem q hp, hv⟩

/-- None of the corrected (canonical) values is itself a misspelled key. -/
lemma corrections_values_not_keys :
    ∀ p ∈ state_corrections, p.2 ∉ knownMisspellings := by decide

/-- The normalized region name is never one of the known misspellings. -/
lemma normalizeState_not_misspelled (s : String) :
    normalizeState s ∉ knownMisspellings := by
  unfold normalizeState applyCorrections
  cases hl : lookupCorrection (pyTitle (pyStrip s)) state_corrections with
  | none =>
    simp only [Option.getD_none]
    intro hmem
    obtain ⟨p, hp, hps⟩ := List.mem_map.mp hmem
    exact lookupCorrection_isSome_of_key _ _ ⟨p, hp, hps⟩ hl
  | some v =>
    simp only [Option.getD_some]
    intro hmem
    obtain ⟨p, hp, hv⟩ := lookupCorrection_mem _ _ _ hl
    exact corrections_values_not_keys p hp (hv ▸ hmem)

/-! ## Claim theorems -/

/-- C1 (counterexample): at multiplier exactly 1.0 the stress-test branch
reports no collapsed count at all, even on a view with a row already past
the 5.0 threshold, so the claim's range "[1.0, 5.0]" is too wide. -/
theorem stress_multiplier_one_reports_no_count :
    (stressBranch 1 [hotRow]).2 = none ∧
    ((stressBranch 1 [hotRow]).1.filter (fun r => decide ((5 : ℚ) < r.assi))).length = 1 ∧
    (stressBranch 1 [hotRow]).2 ≠
      some (((stressBranch 1 [hotRow]).1.filter
        (fun r => decide ((5 : ℚ) < r.assi))).length) := by
  have h0 : (stressBranch 1 [hotRow]).2 = none := by norm_num [stressBranch]
  have h1 : ((stressBranch 1 [hotRow]).1.filter
      (fun r => decide ((5 : ℚ) < r.assi))).length = 1 := by
    norm_num [stressBranch, hotRow, baseRow]
  refine ⟨h0, h1, ?_⟩
  rw [h0, h1]
  exact fun hc => Option.noConfusion hc

/-- C1 (amended): for every multiplier strictly between 1.0 and 5.0
inclusive-above, the transformed view scales every row's stress by the
multiplier and the reported collapsed count is the number of rows of the
transformed view whose stress strictly exceeds 5.0. -/
theorem stress_test_transform_correct (m : ℚ) (hm1 : 1 < m) (_hm5 : m ≤ 5)
    (df : List Row) :
    (stressBranch m df).1 = df.map (fun r => { r with assi := r.assi * m }) ∧
    (stressBranch m df).2 =
      some (((stressBranch m df).1.filter
        (fun r => decide ((5 : ℚ) < r.assi))).length) := by
  simp [stressBranch, hm1]

/-- C1 witness: the amended theorem applied at multiplier 2 on a one-row view. -/
theorem stress_test_transform_correct_witness :
    (stressBranch 2 [hotRow]).1 = [hotRow].map (fun r => { r with assi := r.assi * 2 }) ∧
    (stressBranch 2 [hotRow]).2 =
      some (((stressBranch 2 [hotRow]).1.filter
        (fun r => decide ((5 : ℚ) < r.assi))).length) :=
  stress_test_transform_correct 2 (by norm_num) (by norm_num) [hotRow]

/-- C2 (counterexample): with kits = 0 and staff = 0 the relief branch leaves
the view untouched, so a row with stress 1/20 is NOT mapped through the
spec formula max(stress × (1 − impact), 0.1), which would raise it to 0.1. -/
theorem relief_zero_params_skips_formula :
    reliefBranch 0 0 [lowRow] ≠
      [lowRow].map (fun r => { r with assi := reliefSpecStress 0 0 r.assi }) := by
  norm_num [reliefBranch, reliefSpecStress, lowRow, baseRow, Row.mk.injEq]

/-- C2 (amended): whenever at least one slider is positive, the relief branch
maps every row's stress through max(stress × (1 − impact), 0.1); moreover
kits = 10, staff = 50 give impact 0.70 (below the 0.90 cap) and send a row
with stress 3.0 to 0.9. -/
theorem relief_transform_correct (k s : ℕ) (h : 0 < k ∨ 0 < s)
    (_hk : k ≤ 50) (_hs : s ≤ 100) (df : List Row) :
    reliefBranch k s df = df.map (fun r => { r with assi := reliefSpecStress k s r.assi }) ∧
    impact 10 50 = 7/10 ∧
    reliefSpecStress 10 50 3 = 9/10 := by
  refine ⟨?_, by norm_num [impact], by norm_num [reliefSpecStress]⟩
  simp only [reliefBranch, if_pos h]
  refine List.map_congr_left (fun r _ => ?_)
  simp [impact, reliefSpecStress, mul_comm]

/-- C2 witness: the amended theorem applied at kits = 10, staff = 50 on a
one-row view with stress 3.0. -/
theorem relief_transform_correct_witness :
    reliefBranch 10 50 [baseRow] =
      [baseRow].map (fun r => { r with assi := reliefSpecStress 10 50 r.assi }) ∧
    impact 10 50 = 7/10 ∧
    reliefSpecStress 10 50 3 = 9/10 :=
  relief_transform_correct 10 50 (Or.inl (by norm_num)) (by norm_num) (by norm_num) [baseRow]

/-- C3 (counterexample): at kits = 0 and staff = 0 the relief branch performs
no flooring, so a loaded stress of 1/20 stays below 0.1. -/
theorem relief_zero_params_breaks_floor :
    ¬ (∀ r ∈ reliefBranch 0 0 [lowRow], (1 : ℚ)/10 ≤ r.assi) := by
  intro hall
  have h := hall lowRow (by simp [reliefBranch])
  norm_num [lowRow, baseRow] at h

/-- C3 (amended): whenever at least one slider is positive, every row of the
relief-transformed view has stress at least 0.1. -/
theorem relief_floor_lower_bound (k s : ℕ) (h : 0 < k ∨ 0 < s)
    (_hk : k ≤ 50) (_hs : s ≤ 100) (df : List Row) (r : Row)
    (hr : r ∈ reliefBranch k s df) : (1 : ℚ)/10 ≤ r.assi := by
  simp only [reliefBranch, if_pos h] at hr
  obtain ⟨r0, -, rfl⟩ := List.mem_map.mp hr
  exact le_max_right _ _

/-- C3 witness: the amended theorem applied at kits = 10, staff = 50 to the
transformed image of a concrete row. -/
theorem relief_floor_lower_bound_witness :
    (1 : ℚ)/10 ≤
      ({ baseRow with assi := max (baseRow.assi * (1 - impact 10 50)) (1/10) } : Row).assi :=
  relief_floor_lower_bound 10 50 (Or.inl (by norm_num)) (by norm_num) (by norm_num)
    [baseRow] _ (by simp [reliefBranch])

/-- C10: at the default slider positions (multiplier 1.0; kits 0, staff 0)
both simulator branches are the identity on the view — no multiplication, no
collapsed count, no scaling, no flooring — so rows with stress below 0.1 or
above 5.0 are left exactly as loaded. -/
theorem default_params_identity (df : List Row) :
    stressBranch 1 df = (df, none) ∧ reliefBranch 0 0 df = df := by
  constructor
  · norm_num [stressBranch]
  · norm_num [reliefBranch]

/-- C4 (counterexample): the stress-test transform is not idempotent —
applying it twice at multiplier 2 to a row with stress 3 gives 12, not the 6
a single application gives. -/
theorem stress_transform_not_idempotent :
    (stressBranch 2 (stressBranch 2 [baseRow]).1).1 ≠ (stressBranch 2 [baseRow]).1 := by
  norm_num [stressBranch, baseRow, Row.mk.injEq]

/-- C4 (amended): both transforms are stateless per-row maps over the current
view — each distributes over concatenation of the view, so there is no
cross-record interaction — but re-applying the stress-test transform to its
own output compounds the multiplier (m then m again equals m·m once) instead
of being idempotent. -/
theorem transforms_pointwise_compound (m : ℚ) (k s : ℕ) (d1 d2 : List Row) :
    (stressBranch m (d1 ++ d2)).1 = (stressBranch m d1).1 ++ (stressBranch m d2).1 ∧
    reliefBranch k s (d1 ++ d2) = reliefBranch k s d1 ++ reliefBranch k s d2 ∧
    (1 < m → (stressBranch m (stressBranch m d1).1).1 = (stressBranch (m * m) d1).1) := by
  refine ⟨?_, ?_, ?_⟩
  · by_cases h : 1 < m <;> simp [stressBranch, h]
  · by_cases h : 0 < k ∨ 0 < s <;> simp [reliefBranch, h]
  · intro h
    have hmm : 1 < m * m := one_lt_mul h.le h
    simp [stressBranch, h, hmm, List.map_map, Function.comp, mul_assoc]

/-- C4 witness: the compounding part of the amended theorem at multiplier 2
on a one-row view. -/
theorem transforms_pointwise_compound_witness :
    (stressBranch 2 (stressBranch 2 [baseRow]).1).1 = (stressBranch (2 * 2) [baseRow]).1 :=
  (transforms_pointwise_compound 2 0 0 [baseRow] []).2.2 (by norm_num)

/-- C5: every row of the loader's output arises from an input row whose
region name went through strip, then title-case, then the correction table,
and no output region name is one of the known misspelled variants. -/
theorem cleaned_state_canonical (df : List Row) (r : Row)
    (hr : r ∈ cleanStates df) :
    (∃ r0 ∈ df, r = { r0 with state := applyCorrections (pyTitle (pyStrip r0.state)) }) ∧
    r.state ∉ knownMisspellings := by
  obtain ⟨r0, h0, rfl⟩ := List.mem_map.mp hr
  exact ⟨⟨r0, h0, rfl⟩, normalizeState_not_misspelled r0.state⟩

/-- C5 witness: the theorem applied to the cleaned image of a row whose raw
region name is a padded, mixed-case "Orissa". -/
theorem cleaned_state_canonical_witness :
    (∃ r0 ∈ [{ baseRow with state := "  oRiSsA " }],
      ({ baseRow with state := normalizeState "  oRiSsA " } : Row) =
        { r0 with state := applyCorrections (pyTitle (pyStrip r0.state)) }) ∧
    ({ baseRow with state := normalizeState "  oRiSsA " } : Row).state ∉ knownMisspellings :=
  cleaned_state_canonical [{ baseRow with state := "  oRiSsA " }] _ (by simp [cleanStates])

/-- C6: the working view is exactly the region-filtered dataset — it is a
sublist of the loaded data, and a row belongs to it iff it belongs to the
loaded data and either "All India" was selected or its region matches the
selection. -/
theorem filter_region_spec (sel : String) (df : List Row) (r : Row) :
    (filterRegion sel df).Sublist df ∧
    (r ∈ filterRegion sel df ↔ r ∈ df ∧ (sel = "All India" ∨ r.state = sel)) := by
  by_cases h : sel = "All India"
  · simp [filterRegion, h]
  · constructor
    · simp only [filterRegion, if_pos h]
      exact List.filter_sublist df
    · simp [filterRegion, h]

/-- C6 witness: the theorem applied at a concrete selection and one-row
dataset. -/
theorem filter_region_spec_witness :
    (filterRegion "Odisha" [baseRow]).Sublist [baseRow] ∧
    (baseRow ∈ filterRegion "Odisha" [baseRow] ↔
      baseRow ∈ [baseRow] ∧ ("Odisha" = "All India" ∨ baseRow.state = "Odisha")) :=
  filter_region_spec "Odisha" [baseRow] baseRow

/-- C7: each simulator branch only overwrites the stress metric — zeroing the
`assi` field makes the transformed view literally equal to the original view
(so every other field of every row is untouched), and no row is added or
removed. -/
theorem transforms_frame_condition (m : ℚ) (k s : ℕ) (df : List Row) :
    (stressBranch m df).1.map eraseStress = df.map eraseStress ∧
    (reliefBranch k s df).map eraseStress = df.map eraseStress ∧
    (stressBranch m df).1.length = df.length ∧
    (reliefBranch k s df).length = df.length := by
  refine ⟨?_, ?_, ?_, ?_⟩
  · by_cases h : 1 < m <;> simp [stressBranch, h, List.map_map, Function.comp, eraseStress]
  · by_cases h : 0 < k ∨ 0 < s <;>
      simp [reliefBranch, h, List.map_map, Function.comp, eraseStress]
  · by_cases h : 1 < m <;> simp [stressBranch, h]
  · by_cases h : 0 < k ∨ 0 < s <;> simp [reliefBranch, h]

/-- C8 (counterexample): a dataset missing only the `Priority` column makes
the overview-tab metric computation raise a `KeyError` — a second error kind
beyond the missing-file case, not a substituted default. -/
theorem tab1_missing_priority_raises :
    tab1Metrics presentNoPriority [baseRow] = Except.error "KeyError: Priority" := by
  simp [tab1Metrics, requireCol, presentNoPriority, Bind.bind, Except.bind]

/-- C8 (amended): the deep-dive panel accesses `Priority`,
`Preparedness_Index` and `District_Playbook` defensively — when the four
directly subscripted columns are present it never errors and substitutes
'Normal', 0 and 'Maintain Operations' for whichever optional columns are
absent. -/
theorem deep_dive_defensive_defaults (present : List String) (d : Row)
    (h1 : "district" ∈ present) (h2 : "state" ∈ present)
    (h3 : "future_mbu_demand" ∈ present) (h4 : "assi" ∈ present) :
    deepDivePanel present d =
      Except.ok ⟨d.district, d.state,
        (if "Priority" ∈ present then d.Priority else "Normal"),
        (if "Preparedness_Index" ∈ present then d.Preparedness_Index else 0),
        d.future_mbu_demand,
        (if "District_Playbook" ∈ present then d.District_Playbook
         else "Maintain Operations"),
        min (d.assi / 5) 1⟩ := by
  simp [deepDivePanel, requireCol, h1, h2, h3, h4, Bind.bind, Except.bind,
    Pure.pure, Except.pure]

/-- C8 witness: the amended theorem applied to a column set holding exactly
the four required columns. -/
theorem deep_dive_defensive_defaults_witness :
    deepDivePanel ["district", "state", "future_mbu_demand", "assi"] baseRow =
      Except.ok ⟨baseRow.district, baseRow.state,
        (if "Priority" ∈ ["district", "state", "future_mbu_demand", "assi"]
         then baseRow.Priority else "Normal"),
        (if "Preparedness_Index" ∈ ["district", "state", "future_mbu_demand", "assi"]
         then baseRow.Preparedness_Index else 0),
        baseRow.future_mbu_demand,
        (if "District_Playbook" ∈ ["district", "state", "future_mbu_demand", "assi"]
         then baseRow.District_Playbook else "Maintain Operations"),
        min (baseRow.assi / 5) 1⟩ :=
  deep_dive_defensive_defaults _ baseRow (by decide) (by decide) (by decide) (by decide)

/-- C9: the relief impact is monotonically non-decreasing in the kit count
and in the staff percentage, and never exceeds 0.90. -/
theorem impact_monotone_capped (k1 k2 s1 s2 : ℕ)
    (hk : k1 ≤ k2) (_hk2 : k2 ≤ 50) (hs : s1 ≤ s2) (_hs2 : s2 ≤ 100) :
    impact k1 s1 ≤ impact k2 s2 ∧ impact k2 s2 ≤ 9/10 := by
  constructor
  · unfold impact
    apply min_le_min _ le_rfl
    have hk' : (k1 : ℚ) ≤ k2 := by exact_mod_cast hk
    have hs' : (s1 : ℚ) ≤ s2 := by exact_mod_cast hs
    exact add_le_add (mul_le_mul_of_nonneg_right hk' (by norm_num))
      (mul_le_mul_of_nonneg_right hs' (by norm_num))
  · exact min_le_right _ _

/-- C9 witness: monotonicity and the cap at the concrete points (0,0) and
(10,50). -/
theorem impact_monotone_capped_witness :
    impact 0 0 ≤ impact 10 50 ∧ impact 10 50 ≤ 9/10 :=
  impact_monotone_capped 0 10 0 50 (by norm_num) (by norm_num) (by norm_num) (by norm_num)
